import Mathlib

/-!
Verification development for the sci-rs convolution core and axis-resolution
utilities.

The embedding covers:
* `Error` — the error taxonomy of `sci-rs-core/src/lib.rs` (the `alloc`
  configuration, where each variant carries its diagnostic strings) and
  `ErrorNoAlloc` (the `not(alloc)` configuration, bare tags only);
* `check_and_get_axis_st` / `check_and_get_axis_dyn` — the two axis
  resolvers of `sci-rs/src/signal/filter/arraytools.rs`, embedded with an
  explicit `AxisOutcome` type so that the `expect`-induced abort is a
  visible outcome rather than undefinedness;
* the convolution engine of `sci-rs-core/src/num_rs/convolve/mod.rs`,
  whose numeric kernel lives in the external `ndarray_conv` crate and is
  therefore modelled from the specification text (see the doc comments
  marked `Modelled from the spec:`), over exact rationals.
-/

/-- The `Error` enum of `sci-rs-core/src/lib.rs` in the `alloc`
configuration: every variant carries its diagnostic string payload. -/
inductive Error where
  | InvalidArg (arg : String) (reason : String)
  | ConflictArg (reason : String)
  | Conv (reason : String)
deriving DecidableEq, Repr

/-- The `Error` enum of `sci-rs-core/src/lib.rs` in the `not(alloc)`
configuration: bare tags, no payload. -/
inductive ErrorNoAlloc where
  | InvalidArg
  | ConflictArg
  | Conv
deriving DecidableEq, Repr

/-- Outcome of an axis resolver.  Rust's `Result` has only `Ok`/`Err`, but
both resolvers contain an `.expect(..)` that aborts the process; we make
that abort a third, observable outcome. -/
inductive AxisOutcome (ε : Type) where
  | ok (i : Nat)
  | err (e : ε)
  | abort (msg : String)
deriving DecidableEq, Repr

/-- Rust's `usize::checked_add_signed`: `n + i` when the sum is a valid
`usize`, `none` otherwise.  (With unbounded `Nat` only the negative
underflow case can fail.) -/
def checkedAddSigned (n : Nat) (i : Int) : Option Nat :=
  if 0 ≤ (n : Int) + i then some ((n : Int) + i).toNat else none

/-- `check_and_get_axis_st` from `arraytools.rs` (lines 17–53): validate an
optional signed axis against the statically-known rank `N`, then normalize
it to a non-negative index.  Validation: a negative axis `a` must satisfy
`a.unsigned_abs() ≤ N`; a non-negative one must satisfy
`a.unsigned_abs() < N`; an absent axis skips validation.  Normalization:
an absent axis becomes `-1`; non-negative values pass through via
`unsigned_abs`; negative values go through `N.checked_add_signed(a)`
guarded by an `expect` (modelled as `.abort`). -/
def check_and_get_axis_st (axis : Option Int) (N : Nat) : AxisOutcome Unit :=
  let validated : Bool :=
    match axis with
    | none => true
    | some a => if a < 0 then decide (a.natAbs ≤ N) else decide (a.natAbs < N)
  if validated then
    let axis_inner : Int := axis.getD (-1)
    if 0 ≤ axis_inner then
      .ok axis_inner.natAbs
    else
      match checkedAddSigned N axis_inner with
      | some v => .ok v
      | none => .abort "Invalid add to `axis` option"
  else
    .err ()

/-- `check_and_get_axis_dyn` from `arraytools.rs` (lines 62–96): the
dynamic-rank variant.  Validation is phrased with `is_some_and` over the
negated bound check and failure is `Error::InvalidArg` with arg `"axis"`
and reason `"index out of range."`; normalization is identical to the
static variant with `ndim` in place of `N`. -/
def check_and_get_axis_dyn (axis : Option Int) (ndim : Nat) : AxisOutcome Error :=
  if axis.any (fun a =>
      !(if a < 0 then decide (a.natAbs ≤ ndim) else decide (a.natAbs < ndim))) then
    .err (.InvalidArg "axis" "index out of range.")
  else
    let axis_inner : Int := axis.getD (-1)
    if 0 ≤ axis_inner then
      .ok axis_inner.natAbs
    else
      match checkedAddSigned ndim axis_inner with
      | some v => .ok v
      | none => .abort "Invalid add to `axis` option"

/-- Erase the error payload of an `AxisOutcome`, for comparing the two
resolvers' outcomes shape-for-shape. -/
def AxisOutcome.eraseErr {ε : Type} : AxisOutcome ε → AxisOutcome Unit
  | .ok i => .ok i
  | .err _ => .err ()
  | .abort m => .abort m

/-- The validation-failure condition spelled out by the spec (§4.1 step 2):
a present negative axis fails when `|axis| > N`, a present non-negative
axis fails when `axis ≥ N`; an absent axis never fails validation. -/
def validation_fails (axis : Option Int) (N : Nat) : Bool :=
  match axis with
  | none => false
  | some a => if a < 0 then decide ((N : Int) < -a) else decide ((N : Int) ≤ a)

example : check_and_get_axis_st (some (-1)) 3 = .ok 2 := by decide
example : check_and_get_axis_st none 3 = .ok 2 := by decide
example : check_and_get_axis_st none 0 = .abort "Invalid add to `axis` option" := by decide
example : check_and_get_axis_st (some (-1)) 0 = .err () := by decide
example : check_and_get_axis_dyn (some 5) 2 =
    .err (.InvalidArg "axis" "index out of range.") := by decide

/-- Decidable equality on `Except`, so model outputs can be evaluated on
concrete inputs. -/
instance {ε α : Type} [DecidableEq ε] [DecidableEq α] : DecidableEq (Except ε α) :=
  fun x y =>
    match x, y with
    | .ok a, .ok b =>
        if h : a = b then .isTrue (by rw [h])
        else .isFalse (by intro hh; injection hh; contradiction)
    | .error a, .error b =>
        if h : a = b then .isTrue (by rw [h])
        else .isFalse (by intro hh; injection hh; contradiction)
    | .ok _, .error _ => .isFalse (by intro h; cases h)
    | .error _, .ok _ => .isFalse (by intro h; cases h)

/-- The convolution output modes, `ConvolveMode` from
`sci-rs-core/src/num_rs/convolve/mod.rs` (lines 8–16). -/
inductive ConvolveMode where
  | Full
  | Valid
  | Same
deriving DecidableEq, Repr

/-- Modelled from the spec: one coefficient of the full discrete linear
convolution, computed by multiply-accumulate over the zero-padded inputs
(the multiply-accumulate loop lives in the external `ndarray_conv` crate;
glossary entry "Direct backend").  Out-of-range reads are the zero
padding. -/
def convElem (a v : List ℚ) (n : Nat) : ℚ :=
  ((List.range (n + 1)).map (fun k => a.getD k 0 * v.getD (n - k) 0)).sum

/-- Modelled from the spec: the entire zero-padded convolution, of length
`a_len + v_len - 1` (§4.2 Full). -/
def fullConv (a v : List ℚ) : List ℚ :=
  (List.range (a.length + v.length - 1)).map (convElem a v)

/-- Modelled from the spec (§4.2): the mode-appropriate slice of the full
result — Full returns everything; Same is the centered trim to length
`max(a_len, v_len)`; Valid trims to the full-overlap region of length
`max(a_len, v_len) - min(a_len, v_len) + 1`.  This is the logical
operation both backends of `convolve`/`convolve_scratchf64` compute; the
in-repository test module of the same name exercises it at
`mod.rs` lines 208–236. -/
def linear_convolve (a v : List ℚ) (mode : ConvolveMode) : List ℚ :=
  let full := fullConv a v
  match mode with
  | .Full => full
  | .Same =>
      let olen := max a.length v.length
      (full.drop ((full.length - olen) / 2)).take olen
  | .Valid =>
      let olen := max a.length v.length - min a.length v.length + 1
      (full.drop (min a.length v.length - 1)).take olen

/-- Modelled from the spec: the direct backend primitive
(`ndarray_conv`'s `conv` with `PaddingMode::Zeros`), external to the
repository; its success value is the mode-trimmed linear convolution. -/
def conv_backend (a v : List ℚ) (mode : ConvolveMode) : Except String (List ℚ) :=
  .ok (linear_convolve a v mode)

/-- Modelled from the spec: the frequency-domain backend primitive
(`ndarray_conv`'s `conv_fft_with_processor`), external to the repository;
per §4.2 it computes the same logical operation with the same
single-source-of-truth output length (the scratch processor state does not
affect the result, only setup cost, so it is elided). -/
def conv_fft_backend (a v : List ℚ) (mode : ConvolveMode) : Except String (List ℚ) :=
  .ok (linear_convolve a v mode)

/-- The error-mapping step of `convolve` (`mod.rs` lines 86–93, `alloc`
configuration): any backend failure becomes `Error::Conv` carrying the
backend's description as its reason; a success is passed through
unchanged. -/
def convolve_of_backend (r : Except String (List ℚ)) : Except Error (List ℚ) :=
  r.mapError fun e => Error.Conv e

/-- The error-mapping step of `convolve` (`mod.rs` lines 94–97,
`not(alloc)` configuration): any backend failure becomes the bare `Conv`
tag. -/
def convolve_of_backend_noalloc (r : Except String (List ℚ)) :
    Except ErrorNoAlloc (List ℚ) :=
  r.mapError fun _ => ErrorNoAlloc.Conv

/-- The error-mapping step of `convolve_scratchf64` (`mod.rs` lines
188–195, `alloc` configuration), identical to `convolve`'s. -/
def convolve_scratchf64_of_backend (r : Except String (List ℚ)) :
    Except Error (List ℚ) :=
  r.mapError fun e => Error.Conv e

/-- The error-mapping step of `convolve_scratchf64` (`mod.rs` lines
196–199, `not(alloc)` configuration). -/
def convolve_scratchf64_of_backend_noalloc (r : Except String (List ℚ)) :
    Except ErrorNoAlloc (List ℚ) :=
  r.mapError fun _ => ErrorNoAlloc.Conv

/-- `convolve` (`mod.rs` lines 82–98): invoke the direct backend and map
its failure into the `Error` taxonomy. -/
def convolve (a v : List ℚ) (mode : ConvolveMode) : Except Error (List ℚ) :=
  convolve_of_backend (conv_backend a v mode)

/-- `convolve_scratchf64` (`mod.rs` lines 182–200): invoke the
frequency-domain backend and map its failure into the `Error`
taxonomy. -/
def convolve_scratchf64 (a v : List ℚ) (mode : ConvolveMode) :
    Except Error (List ℚ) :=
  convolve_scratchf64_of_backend (conv_fft_backend a v mode)

example : convolve [1, 2, 3] [0, 1, 1/2] .Full = .ok [0, 1, 5/2, 4, 3/2] := by
  norm_num [convolve, convolve_of_backend, conv_backend, Except.mapError,
    linear_convolve, fullConv, convElem, List.range_succ]

/-- Characterization of the static resolver: an absent axis yields `N - 1`
except at rank `0`, where the `expect` aborts; a negative axis within
bounds yields `N - |a|`; a non-negative axis within bounds passes through;
out-of-bounds axes yield the unit error. -/
theorem check_and_get_axis_st_eq (axis : Option Int) (N : Nat) :
    check_and_get_axis_st axis N =
      match axis with
      | none => if N = 0 then .abort "Invalid add to `axis` option" else .ok (N - 1)
      | some a =>
          if a < 0 then
            if a.natAbs ≤ N then .ok (N - a.natAbs) else .err ()
          else
            if a.natAbs < N then .ok a.natAbs else .err () := by
  rcases axis with _ | a
  · rcases N with _ | n
    · simp [check_and_get_axis_st, checkedAddSigned]
    · have h1 : (0:Int) ≤ ((n+1 : Nat) : Int) + (-1) := by push_cast; omega
      simp [check_and_get_axis_st, checkedAddSigned, h1]
  · unfold check_and_get_axis_st checkedAddSigned
    by_cases hneg : a < 0
    · by_cases hb : a.natAbs ≤ N
      · have h0 : ¬ (0 ≤ a) := by omega
        have h1 : 0 ≤ (N : Int) + a := by omega
        simp [hneg, hb, h0, h1]
        omega
      · simp [hneg, hb]
    · by_cases hb : a.natAbs < N
      · have h0 : 0 ≤ a := by omega
        simp [hneg, hb, h0]
      · simp [hneg, hb]

/-- Characterization of the dynamic resolver; identical shape to the
static one, with the `InvalidArg` payload in place of the unit error. -/
theorem check_and_get_axis_dyn_eq (axis : Option Int) (ndim : Nat) :
    check_and_get_axis_dyn axis ndim =
      match axis with
      | none =>
          if ndim = 0 then .abort "Invalid add to `axis` option" else .ok (ndim - 1)
      | some a =>
          if a < 0 then
            if a.natAbs ≤ ndim then .ok (ndim - a.natAbs)
            else .err (.InvalidArg "axis" "index out of range.")
          else
            if a.natAbs < ndim then .ok a.natAbs
            else .err (.InvalidArg "axis" "index out of range.") := by
  rcases axis with _ | a
  · rcases ndim with _ | n
    · simp [check_and_get_axis_dyn, checkedAddSigned]
    · have h1 : (0:Int) ≤ ((n+1 : Nat) : Int) + (-1) := by push_cast; omega
      simp [check_and_get_axis_dyn, checkedAddSigned, h1]
  · unfold check_and_get_axis_dyn checkedAddSigned
    by_cases hneg : a < 0
    · by_cases hb : a.natAbs ≤ ndim
      · have h0 : ¬ (0 ≤ a) := by omega
        have h1 : 0 ≤ (ndim : Int) + a := by omega
        simp [hneg, hb, h0, h1]
        omega
      · simp [hneg, hb]
    · by_cases hb : a.natAbs < ndim
      · have h0 : 0 ≤ a := by omega
        simp [hneg, hb, h0]
      · simp [hneg, hb]

/-- C3 counterexample: at rank `N = 0` an absent axis spec does not
resolve to `N - 1`; both resolvers skip validation, the checked addition
`0.checked_add_signed(-1)` fails, and the `expect` aborts. -/
theorem c3_counterexample :
    check_and_get_axis_st none 0 = .abort "Invalid add to `axis` option" ∧
    check_and_get_axis_dyn none 0 = .abort "Invalid add to `axis` option" := by
  constructor <;> decide

/-- C3 (amended: the absent-spec default and the in-particular
resolutions of `-1` and `N-1` require `N ≥ 1`; at `N = 0` the absent spec
aborts, see the counterexample): for both resolvers, an absent spec
resolves to `N - 1` when `N ≥ 1`; a present negative `a` is accepted iff
`|a| ≤ N` and resolves to `N + a`; a present non-negative `a` is accepted
iff `a < N` and resolves to `a`; spec `-1` and spec `N - 1` resolve to
`N - 1` when `N ≥ 1`; specs `N` and `-(N+1)` fail with the out-of-range
error. -/
theorem c3_axis_resolution (N : Nat) :
    (1 ≤ N →
      check_and_get_axis_st none N = .ok (N - 1) ∧
      check_and_get_axis_dyn none N = .ok (N - 1)) ∧
    (∀ a : Int, a < 0 →
      (a.natAbs ≤ N →
        check_and_get_axis_st (some a) N = .ok ((N : Int) + a).toNat ∧
        check_and_get_axis_dyn (some a) N = .ok ((N : Int) + a).toNat) ∧
      (N < a.natAbs →
        check_and_get_axis_st (some a) N = .err () ∧
        check_and_get_axis_dyn (some a) N =
          .err (.InvalidArg "axis" "index out of range."))) ∧
    (∀ a : Int, 0 ≤ a →
      (a.natAbs < N →
        check_and_get_axis_st (some a) N = .ok a.natAbs ∧
        check_and_get_axis_dyn (some a) N = .ok a.natAbs) ∧
      (N ≤ a.natAbs →
        check_and_get_axis_st (some a) N = .err () ∧
        check_and_get_axis_dyn (some a) N =
          .err (.InvalidArg "axis" "index out of range."))) ∧
    (1 ≤ N →
      check_and_get_axis_st (some (-1)) N = .ok (N - 1) ∧
      check_and_get_axis_dyn (some (-1)) N = .ok (N - 1) ∧
      check_and_get_axis_st (some ((N : Int) - 1)) N = .ok (N - 1) ∧
      check_and_get_axis_dyn (some ((N : Int) - 1)) N = .ok (N - 1)) ∧
    (check_and_get_axis_st (some (N : Int)) N = .err () ∧
     check_and_get_axis_dyn (some (N : Int)) N =
       .err (.InvalidArg "axis" "index out of range.") ∧
     check_and_get_axis_st (some (-(N : Int) - 1)) N = .err () ∧
     check_and_get_axis_dyn (some (-(N : Int) - 1)) N =
       .err (.InvalidArg "axis" "index out of range.")) := by
  refine ⟨?_, ?_, ?_, ?_, ?_⟩
  · intro h
    rw [check_and_get_axis_st_eq, check_and_get_axis_dyn_eq]
    have h0 : ¬ (N = 0) := by omega
    simp [h0]
  · intro a hneg
    rw [check_and_get_axis_st_eq, check_and_get_axis_dyn_eq]
    constructor
    · intro hb
      simp [hneg, hb]
      omega
    · intro hb
      have hb' : ¬ (a.natAbs ≤ N) := by omega
      simp [hneg, hb']
  · intro a hpos
    have hneg : ¬ (a < 0) := by omega
    rw [check_and_get_axis_st_eq, check_and_get_axis_dyn_eq]
    constructor
    · intro hb
      simp [hneg, hb]
    · intro hb
      have hb' : ¬ (a.natAbs < N) := by omega
      simp [hneg, hb']
  · intro h
    rw [check_and_get_axis_st_eq, check_and_get_axis_dyn_eq,
      check_and_get_axis_st_eq, check_and_get_axis_dyn_eq]
    have h1 : (-1 : Int) < 0 := by omega
    have h2 : (-1 : Int).natAbs ≤ N := by omega
    have h3 : ¬ ((N : Int) - 1 < 0) := by omega
    have h4 : ((N : Int) - 1).natAbs < N := by omega
    simp [h1, h2, h3, h4]
    omega
  · rw [check_and_get_axis_st_eq, check_and_get_axis_dyn_eq,
      check_and_get_axis_st_eq, check_and_get_axis_dyn_eq]
    have h1 : ¬ ((N : Int) < 0) := by omega
    have h2 : ¬ ((N : Int).natAbs < N) := by omega
    have h3 : (-(N : Int) - 1) < 0 := by omega
    have h4 : ¬ ((-(N : Int) - 1).natAbs ≤ N) := by omega
    simp [h1, h2, h3, h4]

/-- C3 witness: at rank 2, the amended claim's first clause gives the
default axis 1. -/
theorem c3_axis_resolution_witness :
    check_and_get_axis_st none 2 = .ok 1 ∧ check_and_get_axis_dyn none 2 = .ok 1 :=
  (c3_axis_resolution 2).1 (by omega)

/-- C4: the static-rank and dynamic-rank resolvers agree on every input —
same resolved index on success, and failures (error or abort) in exactly
the same cases; only the error payload differs, which `eraseErr`
forgets. -/
theorem c4_resolvers_agree (axis : Option Int) (N : Nat) :
    (check_and_get_axis_dyn axis N).eraseErr = check_and_get_axis_st axis N := by
  rw [check_and_get_axis_st_eq, check_and_get_axis_dyn_eq]
  rcases axis with _ | a
  · split_ifs <;> rfl
  · by_cases hneg : a < 0
    · by_cases hb : a.natAbs ≤ N <;> simp [hneg, hb, AxisOutcome.eraseErr]
    · by_cases hb : a.natAbs < N <;> simp [hneg, hb, AxisOutcome.eraseErr]

/-- C5: whenever either resolver returns successfully, the resolved index
is in range: `0 ≤ i < N`. -/
theorem c5_resolved_in_range (axis : Option Int) (N : Nat) (i : Nat) :
    (check_and_get_axis_st axis N = .ok i ∨ check_and_get_axis_dyn axis N = .ok i) →
    0 ≤ i ∧ i < N := by
  intro h
  rcases h with h | h
  · rw [check_and_get_axis_st_eq] at h
    rcases axis with _ | a
    · split_ifs at h with h0
      all_goals simp_all
      all_goals omega
    · by_cases hneg : a < 0
      · by_cases hb : a.natAbs ≤ N
        · simp [hneg, hb] at h
          omega
        · simp [hneg, hb] at h
      · by_cases hb : a.natAbs < N
        · simp [hneg, hb] at h
          omega
        · simp [hneg, hb] at h
  · rw [check_and_get_axis_dyn_eq] at h
    rcases axis with _ | a
    · split_ifs at h with h0
      all_goals simp_all
      all_goals omega
    · by_cases hneg : a < 0
      · by_cases hb : a.natAbs ≤ N
        · simp [hneg, hb] at h
          omega
        · simp [hneg, hb] at h
      · by_cases hb : a.natAbs < N
        · simp [hneg, hb] at h
          omega
        · simp [hneg, hb] at h

/-- C5 witness: axis 0 at rank 1 resolves to index 0, which is in
range. -/
theorem c5_resolved_in_range_witness : 0 ≤ 0 ∧ 0 < 1 :=
  c5_resolved_in_range (some 0) 1 0 (Or.inl (by decide))

/-- C6 counterexample: the dynamic resolver's error reason carries a
trailing period — it is `"index out of range."`, not the claimed
`"index out of range"`. -/
theorem c6_counterexample :
    check_and_get_axis_dyn (some 5) 2 ≠
      .err (.InvalidArg "axis" "index out of range") ∧
    check_and_get_axis_dyn (some 5) 2 =
      .err (.InvalidArg "axis" "index out of range.") := by
  constructor <;> decide

/-- C6 (amended: the dynamic resolver's reason string is
`"index out of range."`, with a trailing period): each resolver errors
exactly when validation fails; the static resolver's only error value is
the bare unit marker, and the dynamic resolver's only error value is
`InvalidArg` with arg `"axis"` and reason `"index out of range."`. -/
theorem c6_error_forms (axis : Option Int) (N : Nat) :
    (check_and_get_axis_st axis N = .err () ↔ validation_fails axis N = true) ∧
    (check_and_get_axis_dyn axis N =
        .err (.InvalidArg "axis" "index out of range.") ↔
      validation_fails axis N = true) ∧
    (∀ e, check_and_get_axis_dyn axis N = .err e →
      e = .InvalidArg "axis" "index out of range.") ∧
    (∀ e, check_and_get_axis_st axis N = .err e → e = ()) := by
  rw [check_and_get_axis_st_eq, check_and_get_axis_dyn_eq]
  rcases axis with _ | a
  · simp [validation_fails]
    split_ifs <;> simp
  · by_cases hneg : a < 0
    · by_cases hb : a.natAbs ≤ N
      · have hv : validation_fails (some a) N = false := by
          simp [validation_fails, hneg]
          omega
        simp [hneg, hb, hv]
      · have hv : validation_fails (some a) N = true := by
          simp [validation_fails, hneg]
          omega
        simp [hneg, hb, hv]
    · by_cases hb : a.natAbs < N
      · have hv : validation_fails (some a) N = false := by
          simp [validation_fails, hneg]
          omega
        simp [hneg, hb, hv]
      · have hv : validation_fails (some a) N = true := by
          simp [validation_fails, hneg]
          omega
        simp [hneg, hb, hv]

/-- C6 witness: axis 5 at rank 2 fails validation and the dynamic
resolver returns the exact `InvalidArg` payload of the code. -/
theorem c6_error_forms_witness :
    check_and_get_axis_dyn (some 5) 2 =
      .err (.InvalidArg "axis" "index out of range.") :=
  (c6_error_forms (some 5) 2).2.1.mpr (by decide)

/-- C10 counterexample: at rank `N = 0` with the negative spec `-1`, the
resolvers do not abort — validation already fails (`|-1| > 0`), so they
return their ordinary out-of-range errors; only the absent spec reaches
the failing checked addition. -/
theorem c10_counterexample :
    check_and_get_axis_st (some (-1)) 0 = .err () ∧
    check_and_get_axis_dyn (some (-1)) 0 =
      .err (.InvalidArg "axis" "index out of range.") := by
  constructor <;> decide

/-- C10 (amended: at `N = 0` only the absent spec aborts; a negative spec
fails validation and returns an error): for `N ≥ 1` the expect-guarded
checked addition never fails for any spec, absent included; at `N = 0`
the absent spec skips validation and the checked addition fails, so both
resolvers abort; at `N = 0` a negative spec is rejected by validation and
an error is returned instead. -/
theorem c10_checked_add (N : Nat) (axis : Option Int) :
    (1 ≤ N → (∀ m, check_and_get_axis_st axis N ≠ .abort m) ∧
             (∀ m, check_and_get_axis_dyn axis N ≠ .abort m)) ∧
    (check_and_get_axis_st none 0 = .abort "Invalid add to `axis` option" ∧
     check_and_get_axis_dyn none 0 = .abort "Invalid add to `axis` option") ∧
    (∀ a : Int, a < 0 → axis = some a → N = 0 →
      check_and_get_axis_st axis N = .err () ∧
      check_and_get_axis_dyn axis N =
        .err (.InvalidArg "axis" "index out of range.")) := by
  refine ⟨?_, by constructor <;> decide, ?_⟩
  · intro hN
    rw [check_and_get_axis_st_eq, check_and_get_axis_dyn_eq]
    have h0 : ¬ (N = 0) := by omega
    rcases axis with _ | a
    · simp [h0]
    · by_cases hneg : a < 0
      · by_cases hb : a.natAbs ≤ N <;> simp [hneg, hb]
      · by_cases hb : a.natAbs < N <;> simp [hneg, hb]
  · rintro a hneg rfl rfl
    rw [check_and_get_axis_st_eq, check_and_get_axis_dyn_eq]
    have hb : ¬ (a.natAbs ≤ 0) := by omega
    simp [hneg, hb]

/-- C10 witness: at rank 1 no spec aborts (shown for the absent spec and
an arbitrary message), and at rank 0 the negative spec `-1` yields errors
rather than an abort. -/
theorem c10_checked_add_witness :
    check_and_get_axis_st none 1 ≠ .abort "Invalid add to `axis` option" ∧
    check_and_get_axis_st (some (-1)) 0 = .err () :=
  ⟨(((c10_checked_add 1 none).1 (by omega)).1) "Invalid add to `axis` option",
   ((c10_checked_add 0 (some (-1))).2.2 (-1) (by omega) rfl rfl).1⟩

/-- Length of the full zero-padded convolution. -/
theorem fullConv_length (a v : List ℚ) :
    (fullConv a v).length = a.length + v.length - 1 := by
  simp [fullConv]

/-- Length of the mode-trimmed convolution, for nonempty inputs with the
kernel no longer than the signal. -/
theorem linear_convolve_length (a v : List ℚ) (mode : ConvolveMode)
    (h1 : 1 ≤ v.length) (h2 : v.length ≤ a.length) :
    (linear_convolve a v mode).length =
      match mode with
      | .Full => a.length + v.length - 1
      | .Same => max a.length v.length
      | .Valid => max a.length v.length - min a.length v.length + 1 := by
  cases mode
  · simp [linear_convolve, fullConv]
  · simp [linear_convolve, fullConv]
    omega
  · simp [linear_convolve, fullConv]
    omega

/-- C1: for every mode and every pair of input lengths with
`1 ≤ v_len ≤ a_len` (zero-length inputs are precondition violations,
spec §4.3), the sequence returned by `convolve` and by
`convolve_scratchf64` has length `a_len + v_len - 1` for Full,
`max(a_len, v_len)` for Same and `max(a_len, v_len) - min(a_len, v_len)
+ 1` for Valid. -/
theorem c1_output_length (a v : List ℚ) (mode : ConvolveMode)
    (h1 : 1 ≤ v.length) (h2 : v.length ≤ a.length) :
    ∀ out, (convolve a v mode = .ok out ∨ convolve_scratchf64 a v mode = .ok out) →
      out.length =
        match mode with
        | .Full => a.length + v.length - 1
        | .Same => max a.length v.length
        | .Valid => max a.length v.length - min a.length v.length + 1 := by
  intro out hout
  have hout' : out = linear_convolve a v mode := by
    rcases hout with h | h <;>
      · simp only [convolve, convolve_scratchf64, convolve_of_backend,
          convolve_scratchf64_of_backend, conv_backend, conv_fft_backend,
          Except.mapError] at h
        injection h with h
        exact h.symm
  rw [hout']
  exact linear_convolve_length a v mode h1 h2

/-- C1 witness: at signal `[1,2,3]`, kernel `[0,1,1/2]`, Full mode, the
returned sequence has length `3 + 3 - 1 = 5`. -/
theorem c1_output_length_witness :
    (linear_convolve [1, 2, 3] [0, 1, (1 : ℚ)/2] .Full).length = 3 + 3 - 1 :=
  c1_output_length [1, 2, 3] [0, 1, (1 : ℚ)/2] .Full (by simp) (by simp)
    (linear_convolve [1, 2, 3] [0, 1, (1 : ℚ)/2] .Full) (Or.inl rfl)

/-- C2: on signal `[1, 2, 3]` and kernel `[0, 1, 1/2]`, `convolve`
returns `Ok [0, 1, 5/2, 4, 3/2]` in Full mode, `Ok [1, 5/2, 4]` in Same
mode and `Ok [5/2]` in Valid mode. -/
theorem c2_concrete_scenario :
    convolve [1, 2, 3] [0, 1, 1/2] .Full = .ok [0, 1, 5/2, 4, 3/2] ∧
    convolve [1, 2, 3] [0, 1, 1/2] .Same = .ok [1, 5/2, 4] ∧
    convolve [1, 2, 3] [0, 1, 1/2] .Valid = .ok [5/2] := by
  refine ⟨?_, ?_, ?_⟩ <;>
    norm_num [convolve, convolve_of_backend, conv_backend, Except.mapError,
      linear_convolve, fullConv, convElem, List.range_succ]

/-- C7: any backend failure is surfaced as the `Conv` variant carrying
the backend's failure description as its reason in the `alloc`
configuration, and as the bare `Conv` tag otherwise, for `convolve` and
`convolve_scratchf64` alike; a success passes the backend's complete
result through unchanged, so the outcome is always either a complete
result sequence or a typed error — never a partial result. -/
theorem c7_backend_failure (e : String) (r : Except String (List ℚ)) (xs : List ℚ) :
    (convolve_of_backend (.error e) = .error (.Conv e) ∧
     convolve_scratchf64_of_backend (.error e) = .error (.Conv e) ∧
     convolve_of_backend_noalloc (.error e) = .error .Conv ∧
     convolve_scratchf64_of_backend_noalloc (.error e) = .error .Conv) ∧
    (∀ a v mode, convolve a v mode = convolve_of_backend (conv_backend a v mode)) ∧
    (∀ a v mode, convolve_scratchf64 a v mode =
      convolve_scratchf64_of_backend (conv_fft_backend a v mode)) ∧
    (convolve_of_backend r = .ok xs → r = .ok xs) ∧
    (convolve_scratchf64_of_backend r = .ok xs → r = .ok xs) := by
  refine ⟨⟨rfl, rfl, rfl, rfl⟩, fun a v mode => rfl, fun a v mode => rfl, ?_, ?_⟩ <;>
    · intro h
      cases r with
      | ok a =>
          simp only [convolve_of_backend, convolve_scratchf64_of_backend,
            Except.mapError] at h
          injection h with h
          rw [h]
      | error b =>
          simp only [convolve_of_backend, convolve_scratchf64_of_backend,
            Except.mapError] at h
          cases h

/-- C7 witness: a concrete backend failure maps to the `Conv` error with
that description, and a concrete backend success passes through. -/
theorem c7_backend_failure_witness :
    convolve_of_backend (.error "kernel longer than signal") =
      .error (.Conv "kernel longer than signal") ∧
    (Except.ok [(1 : ℚ)] : Except String (List ℚ)) = .ok [(1 : ℚ)] :=
  ⟨(c7_backend_failure "kernel longer than signal" (.ok [(1 : ℚ)]) [(1 : ℚ)]).1.1,
   (c7_backend_failure "kernel longer than signal" (.ok [(1 : ℚ)]) [(1 : ℚ)]).2.2.2.1 rfl⟩

/-- Convolving against the singleton kernel `[1]` leaves each coefficient
of the signal unchanged. -/
theorem convElem_single (a : List ℚ) (n : Nat) : convElem a [1] n = a.getD n 0 := by
  unfold convElem
  rw [List.range_succ, List.map_append, List.sum_append]
  have h0 : ((List.range n).map
      (fun k => a.getD k 0 * ([1] : List ℚ).getD (n - k) 0)).sum = 0 := by
    apply List.sum_eq_zero
    intro x hx
    rcases List.mem_map.mp hx with ⟨k, hk, rfl⟩
    have hk' : k < n := List.mem_range.mp hk
    have hz : ([1] : List ℚ).getD (n - k) 0 = 0 := by
      cases h : n - k with
      | zero => omega
      | succ m => simp [List.getD]
    rw [hz, mul_zero]
  rw [h0, zero_add]
  simp

/-- Reading a list back out of its indices reproduces the list. -/
theorem map_range_getD (l : List ℚ) :
    (List.range l.length).map (fun n => l.getD n 0) = l := by
  apply List.ext_getElem
  · simp
  · intro i h1 h2
    simp [List.getD_eq_getElem?_getD, List.getElem?_eq_getElem h2]

/-- C8: for every non-empty signal, `convolve` with the single-element
kernel `[1]` in Full mode returns `Ok` of the original signal — `[1]` is
an identity element. -/
theorem c8_full_identity (a : List ℚ) (_h : a ≠ []) :
    convolve a [(1 : ℚ)] .Full = .ok a := by
  unfold convolve convolve_of_backend conv_backend
  simp only [Except.mapError]
  unfold linear_convolve fullConv
  have hfun : convElem a [1] = fun n => a.getD n 0 := funext (convElem_single a)
  simp only [hfun, List.length_singleton, Nat.add_sub_cancel]
  rw [map_range_getD]

/-- C8 witness: the signal `[3, 7]` is returned unchanged. -/
theorem c8_full_identity_witness :
    convolve [3, 7] [(1 : ℚ)] .Full = .ok [3, 7] :=
  c8_full_identity [3, 7] (by simp)
